import Mathlib

set_option linter.unusedSectionVars false
set_option linter.unusedVariables false

/-!
Shallow embedding of the gravsim physics engine (src/gravsim_calc.js, with the
host-side body lifecycle from src/gravsim.js and the Taylor extrapolation
accessors of the calc-worker variant in src/unnamed/part_001).

Numbers are modelled by an arbitrary linear ordered field `K` (instantiated at
`ℚ` for concrete evaluation and at `ℝ` for the statements that depend on the
semantics of `Math.sqrt`, which is threaded through the definitions as an
explicit function argument and instantiated with `Real.sqrt`).
-/

namespace GravSim

variable {K : Type*} [LinearOrderedField K]

/-- `const G = 6.67430e-11` (gravsim_calc.js line 3). -/
def G : K := 66743 / 10 ^ 15

/-- `const YEARS_PER_SECOND = 60*60*24*365.25` (gravsim_calc.js line 4). -/
def YEARS_PER_SECOND : K := 60 * 60 * 24 * (1461 / 4)

/-- `const C = 2.99792458e8` (gravsim_calc.js line 5), the speed-of-light cap. -/
def C : K := 299792458

/-- `const TIME_SCALE = 1e3` (gravsim_calc.js line 7). -/
def TIME_SCALE : K := 1000

/-- `const CALC_INTERVAL = 60` (gravsim_calc.js line 8). -/
def CALC_INTERVAL : K := 60

/-- A simulated body of the calc worker: the plain object created by the `add`
command in `GravSimCalc.onmessage` (gravsim_calc.js lines 28-38), plus the
`collided` flag set by `collisionCheck`.  A freshly created object has no
`collided` property, i.e. it is falsy, modelled by `collided = false`. -/
@[ext]
structure Obj (K : Type*) where
  id : ℤ
  x : K
  y : K
  vx : K
  vy : K
  ax : K
  ay : K
  mass : K
  radius : K
  collided : Bool
deriving DecidableEq

/-- `getXt(dt)` of the worker-variant GravSimObject (src/unnamed/part_001):
second-order Taylor extrapolation `x + vx*dt + 1/2*ax*dt*dt`. -/
def getXt (o : Obj K) (dt : K) : K :=
  o.x + o.vx * dt + 1 / 2 * o.ax * dt * dt

/-- `getYt(dt)` (src/unnamed/part_001). -/
def getYt (o : Obj K) (dt : K) : K :=
  o.y + o.vy * dt + 1 / 2 * o.ay * dt * dt

/-- `getVXt(dt)` (src/unnamed/part_001): `vx + ax*dt`. -/
def getVXt (o : Obj K) (dt : K) : K :=
  o.vx + o.ax * dt

/-- `getVYt(dt)` (src/unnamed/part_001). -/
def getVYt (o : Obj K) (dt : K) : K :=
  o.vy + o.ay * dt

/-- `GravSimCalc.isColliding(obj1, obj2)` (gravsim_calc.js lines 96-103):
`distSq < radiusSum * radiusSum` on the current positions. -/
def isColliding (o1 o2 : Obj K) : Bool :=
  let dx := o2.x - o1.x
  let dy := o2.y - o1.y
  let distSq := dx * dx + dy * dy
  let radiusSum := o1.radius + o2.radius
  decide (distSq < radiusSum * radiusSum)

/-- Marking `objects[k].collided = true` in place (no-op when out of bounds). -/
def setCollidedAt (s : List (Obj K)) (k : ℕ) : List (Obj K) :=
  match s[k]? with
  | some o => s.set k { o with collided := true }
  | none => s

/-- The body of the double loop of `GravSimCalc.collisionCheck`
(gravsim_calc.js lines 111-121): for the pair at positions `i < j`, if the ids
differ and `isColliding` holds, mark the lower-mass side (ties mark `other`,
the second element, via the `else` branch). -/
def checkPairAt (s : List (Obj K)) (i j : ℕ) : List (Obj K) :=
  match s[i]?, s[j]? with
  | some obj, some other =>
    if obj.id ≠ other.id then
      if isColliding obj other then
        if obj.mass < other.mass then setCollidedAt s i else setCollidedAt s j
      else s
    else s
  | _, _ => s

/-- `GravSimCalc.collisionCheck()` (gravsim_calc.js lines 105-123): the double
loop `for i; for j = i+1` over the object list.  Marking only writes the
`collided` flag, so the list length is invariant. -/
def collisionCheck (s : List (Obj K)) : List (Obj K) :=
  (List.range s.length).foldl
    (fun cur1 i =>
      (List.range' (i + 1) (s.length - (i + 1))).foldl
        (fun cur2 j => checkPairAt cur2 i j) cur1)
    s

/-- JavaScript `v || d` on an optional numeric field: absent (`none`) and `0`
are falsy and yield the default `d`; any other number is returned as is. -/
def jsOr (v : Option K) (d : K) : K :=
  match v with
  | none => d
  | some x => if x = 0 then d else x

/-- JavaScript `x || d` on a numeric field that is always present. -/
def jsOrNum (x d : K) : K :=
  if x = 0 then d else x

/-- The payload of an `add`/`update` command (gravsim_calc.js `onmessage`):
`x` and `y` are required, the remaining numeric fields may be absent. -/
structure AddData (K : Type*) where
  id : ℤ
  x : K
  y : K
  vx : Option K
  vy : Option K
  ax : Option K
  ay : Option K
  mass : Option K
  radius : Option K
deriving DecidableEq

/-- The `add` branch of `GravSimCalc.onmessage` (gravsim_calc.js lines 27-39):
`vx: data.vx || 0, ..., mass: data.mass || 1, radius: data.radius || 1`. -/
def addBody (d : AddData K) : Obj K :=
  { id := d.id
    x := d.x
    y := d.y
    vx := jsOr d.vx 0
    vy := jsOr d.vy 0
    ax := jsOr d.ax 0
    ay := jsOr d.ay 0
    mass := jsOr d.mass 1
    radius := jsOr d.radius 1
    collided := false }

/-- The `dt` computation of `GravSimCalc.update` (gravsim_calc.js line 140):
`(now - this.lastTime) * YEARS_PER_SECOND / TIME_SCALE * this.timeScale`. -/
def computeDt (now lastTime timeScale : K) : K :=
  (now - lastTime) * YEARS_PER_SECOND / TIME_SCALE * timeScale

/-- The clamped squared distance of `GravSimCalc.applyGravity`
(gravsim_calc.js line 71):
`Math.max(dx*dx + dy*dy, (obj1.radius + obj2.radius)*(obj1.radius + obj2.radius))`. -/
def gravDistSq (o1 o2 : Obj K) : K :=
  let dx := o2.x - o1.x
  let dy := o2.y - o1.y
  max (dx * dx + dy * dy) ((o1.radius + o2.radius) * (o1.radius + o2.radius))

/-- `GravSimCalc.applyGravity(obj1, obj2)` (gravsim_calc.js lines 68-79),
returning the updated `obj1`.  `Math.sqrt` is passed in as `sqrt`. -/
def applyGravity (sqrt : K → K) (o1 o2 : Obj K) : Obj K :=
  let dx := o2.x - o1.x
  let dy := o2.y - o1.y
  let distSq := gravDistSq o1 o2
  let dist := sqrt distSq
  let force := G * o1.mass * o2.mass / distSq
  let accel := force / o1.mass
  { o1 with ax := o1.ax + accel * dx / dist, ay := o1.ay + accel * dy / dist }

/-- `GravSimCalc.updateGravity(obj)` (gravsim_calc.js lines 125-136): the
acceleration is reset to zero and every list entry with a different id
contributes via `applyGravity`. -/
def updateGravity (sqrt : K → K) (objs : List (Obj K)) (obj : Obj K) : Obj K :=
  objs.foldl
    (fun cur other => if cur.id ≠ other.id then applyGravity sqrt cur other else cur)
    { obj with ax := 0, ay := 0 }

/-- The speed cap at the end of the per-body loop of `GravSimCalc.update`
(gravsim_calc.js lines 156-161): if `Math.sqrt(vx*vx + vy*vy) > C`, rescale
`(vx, vy)` to `C * (vx/v), C * (vy/v)`. -/
def applyCap (sqrt : K → K) (o : Obj K) : Obj K :=
  let v := sqrt (o.vx * o.vx + o.vy * o.vy)
  if v > C then { o with vx := C * (o.vx / v), vy := C * (o.vy / v) } else o

/-- The body of the per-object loop of `GravSimCalc.update`
(gravsim_calc.js lines 143-162): two-stage velocity update around the position
advance, followed by the speed cap.  The second `updateGravity` call passes the
same object list; the moved object's own stale entry in it is skipped by the id
test exactly as in the source. -/
def updateBody (sqrt : K → K) (objs : List (Obj K)) (dt : K) (obj : Obj K) :
    Obj K :=
  let g1 := updateGravity sqrt objs obj
  let half_vx := g1.vx + g1.ax * dt / 2
  let half_vy := g1.vy + g1.ay * dt / 2
  let moved := { g1 with x := g1.x + half_vx * dt, y := g1.y + half_vy * dt }
  let g2 := updateGravity sqrt objs moved
  applyCap sqrt { g2 with vx := half_vx + g2.ax * dt / 2, vy := half_vy + g2.ay * dt / 2 }

/-- The `for (let i = 0; ...)` loop of `GravSimCalc.update`
(gravsim_calc.js lines 143-162): each object is replaced in the live list by
its updated value before the next object is processed. -/
def moveLoop (sqrt : K → K) (dt : K) (s : List (Obj K)) : List (Obj K) :=
  (List.range s.length).foldl
    (fun cur i =>
      match cur[i]? with
      | some obj => cur.set i (updateBody sqrt cur dt obj)
      | none => cur)
    s

/-- One entry of the report built by `GravSimCalc.convertToMessage`
(gravsim_calc.js lines 81-94). -/
structure Msg (K : Type*) where
  id : ℤ
  x : K
  y : K
  vx : K
  vy : K
  ax : K
  ay : K
  collided : Bool
deriving DecidableEq

/-- The per-object body of `GravSimCalc.convertToMessage`
(gravsim_calc.js lines 83-92): every numeric field is reported as `field || 0`
and the flag as `obj.collided || false`. -/
def toMessage (o : Obj K) : Msg K :=
  { id := o.id
    x := jsOrNum o.x 0
    y := jsOrNum o.y 0
    vx := jsOrNum o.vx 0
    vy := jsOrNum o.vy 0
    ax := jsOrNum o.ax 0
    ay := jsOrNum o.ay 0
    collided := (o.collided || false) }

/-- `GravSimCalc.convertToMessage()` (gravsim_calc.js lines 81-94). -/
def convertToMessage (s : List (Obj K)) : List (Msg K) :=
  s.map toMessage

/-- The tick pipeline of `GravSimCalc.update` after `dt` is computed
(gravsim_calc.js lines 143-172): integrate every body, run `collisionCheck`,
emit the report from the pre-purge list, then purge the collided bodies. -/
def update (sqrt : K → K) (dt : K) (s : List (Obj K)) :
    List (Msg K) × List (Obj K) :=
  let moved := moveLoop sqrt dt s
  let checked := collisionCheck moved
  (convertToMessage checked, checked.filter (fun o => !o.collided))

/-- `DEFAULT_OBJECT_PARAMS["Sun"].NAME` (gravsim.js line 16). -/
def SUN_NAME : String := "Sun"

namespace OBJECT_STATE

/-- `OBJECT_STATE.ACTIVE` (gravsim.js line 709). -/
def ACTIVE : ℕ := 0

/-- `OBJECT_STATE.REMOVED` (gravsim.js line 710). -/
def REMOVED : ℕ := 1

/-- `OBJECT_STATE.HISTORY_DONE` (gravsim.js line 711). -/
def HISTORY_DONE : ℕ := 2

end OBJECT_STATE

/-- The host-side `GravSimObject` of gravsim.js (lines 736-899), restricted to
the fields read or written by the lifecycle methods modelled here (the
rendering-only `color` and `size` fields are omitted). -/
structure GravSimObject (K : Type*) where
  name : String
  id : ℤ
  x : K
  y : K
  vx : K
  vy : K
  ax : K
  ay : K
  mass : K
  radius : K
  state : ℕ
  history : List (K × K)
deriving DecidableEq

/-- `GravSimObject.setCollided()` (gravsim.js lines 796-802): a no-op for the
object named `"Sun"`, otherwise the state becomes `REMOVED`. -/
def GravSimObject.setCollided (o : GravSimObject K) : GravSimObject K :=
  if o.name = SUN_NAME then o else { o with state := OBJECT_STATE.REMOVED }

/-- `GravSimObject.finished()` (gravsim.js lines 787-794): removed and with an
exhausted history trail. -/
def GravSimObject.finished (o : GravSimObject K) : Bool :=
  decide (o.state = OBJECT_STATE.REMOVED ∧ o.history.length = 0)

/-- `Universe.removeFinished()` (gravsim.js lines 1379-1381):
`this.objects = this.objects.filter(obj => !obj.finished())`. -/
def removeFinished (s : List (GravSimObject K)) : List (GravSimObject K) :=
  s.filter (fun o => !o.finished)

/-- The spec's per-pair acceleration contribution (x component), transcribed
from §4.2 of the spec for comparison with `applyGravity`:
`accel = (G·mass₁·mass₂/distSq)/mass₁` directed along `(dx, dy)/dist` with
`distSq` clamped below by `(radiusSum)²` and `dist = sqrt distSq`. -/
def specAccelX (sqrt : K → K) (body other : Obj K) : K :=
  let dx := other.x - body.x
  let distSq := gravDistSq body other
  let dist := sqrt distSq
  G * body.mass * other.mass / distSq / body.mass * dx / dist

/-- The spec's per-pair acceleration contribution (y component). -/
def specAccelY (sqrt : K → K) (body other : Obj K) : K :=
  let dy := other.y - body.y
  let distSq := gravDistSq body other
  let dist := sqrt distSq
  G * body.mass * other.mass / distSq / body.mass * dy / dist

/-- The spec's `speed()` accessor (§4.1): the Euclidean norm of `(vx, vy)`,
written with `Math.sqrt` as in `getV()` of the worker variant. -/
noncomputable def speed (o : Obj ℝ) : ℝ :=
  Real.sqrt (o.vx * o.vx + o.vy * o.vy)

/-- The spec's half-step velocity `v_half = v + a·dt/2` (x component, §4.3
step 2), with the acceleration recomputed at the current position. -/
def specHalfVx (sqrt : K → K) (objs : List (Obj K)) (dt : K) (obj : Obj K) : K :=
  obj.vx + (updateGravity sqrt objs obj).ax * dt / 2

/-- The spec's half-step velocity (y component). -/
def specHalfVy (sqrt : K → K) (objs : List (Obj K)) (dt : K) (obj : Obj K) : K :=
  obj.vy + (updateGravity sqrt objs obj).ay * dt / 2

/-- The spec's position advance `x += v_half·dt` (§4.3 step 3): the body at
its new position, carrying the acceleration recomputed at the old position. -/
def specMoved (sqrt : K → K) (objs : List (Obj K)) (dt : K) (obj : Obj K) :
    Obj K :=
  { obj with
      x := obj.x + specHalfVx sqrt objs dt obj * dt
      y := obj.y + specHalfVy sqrt objs dt obj * dt
      ax := (updateGravity sqrt objs obj).ax
      ay := (updateGravity sqrt objs obj).ay }

/-- The spec's completed velocity `v = v_half + a_new·dt/2` (x component,
§4.3 step 5), with `a_new` recomputed at the advanced position. -/
def specFinalVx (sqrt : K → K) (objs : List (Obj K)) (dt : K) (obj : Obj K) : K :=
  specHalfVx sqrt objs dt obj
    + (updateGravity sqrt objs (specMoved sqrt objs dt obj)).ax * dt / 2

/-- The spec's completed velocity (y component). -/
def specFinalVy (sqrt : K → K) (objs : List (Obj K)) (dt : K) (obj : Obj K) : K :=
  specHalfVy sqrt objs dt obj
    + (updateGravity sqrt objs (specMoved sqrt objs dt obj)).ay * dt / 2

/-- `t` arises from `s` by only (possibly) switching `collided` flags on:
positionwise each entry is either unchanged or the same object marked.  This
is the shape of what `collisionCheck` does to its list. -/
@[reducible]
def MarkedFrom (s t : List (Obj K)) : Prop :=
  ∀ (j : ℕ) (o : Obj K), t[j]? = some o →
    ∃ o₀ : Obj K, s[j]? = some o₀ ∧ (o = o₀ ∨ o = { o₀ with collided := true })

/-! ### Claim C3: protection of the central body -/

/-- C3 counterexample: in the calc worker there is no central-body override.
With the first-created body (the conventional Sun, id 0) overlapping a later,
ten times heavier body (id 1), `collisionCheck` marks the central body
`collided = true` through the plain mass comparison, and the end-of-tick purge
filter then drops it from the worker's simulation state. -/
theorem c3_counterexample :
    (collisionCheck [(⟨0, 0, 0, 0, 0, 0, 0, 1, 1, false⟩ : Obj ℚ),
        ⟨1, 1, 0, 0, 0, 0, 0, 10, 1, false⟩])[0]?
      = some ⟨0, 0, 0, 0, 0, 0, 0, 1, 1, true⟩
    ∧ ((collisionCheck [(⟨0, 0, 0, 0, 0, 0, 0, 1, 1, false⟩ : Obj ℚ),
        ⟨1, 1, 0, 0, 0, 0, 0, 10, 1, false⟩]).filter (fun o => !o.collided)).map
        (fun o => o.id) = [1] := by
  constructor
  · simp only [collisionCheck, checkPairAt, setCollidedAt, isColliding]
    norm_num [List.range_succ]
  · simp only [collisionCheck, checkPairAt, setCollidedAt, isColliding]
    norm_num [List.range_succ]

/-- C3 (amended): the explicit override lives on the host side of gravsim.js:
`GravSimObject.setCollided` is a no-op for the body named `"Sun"` and sets
`state = REMOVED` for every other body, so regardless of the masses involved
in a reported collision the host never marks the Sun removed, and an active
Sun always survives the host's purge `removeFinished`; the worker-side
`collisionCheck` has no such override and protects the central body only
through the mass comparison. -/
theorem c3_sun_override :
    (∀ o : GravSimObject K, o.name = SUN_NAME → o.setCollided = o)
    ∧ (∀ o : GravSimObject K, o.name ≠ SUN_NAME →
        (o.setCollided).state = OBJECT_STATE.REMOVED)
    ∧ (∀ (o : GravSimObject K) (s : List (GravSimObject K)),
        o ∈ s → o.name = SUN_NAME → o.state = OBJECT_STATE.ACTIVE →
        o ∈ removeFinished s) := by
  refine ⟨fun o h => ?_, fun o h => ?_, fun o s hmem _ hstate => ?_⟩
  · simp [GravSimObject.setCollided, h]
  · simp [GravSimObject.setCollided, h]
  · simp only [removeFinished, List.mem_filter, hmem, true_and]
    simp [GravSimObject.finished, hstate, OBJECT_STATE.ACTIVE, OBJECT_STATE.REMOVED]

/-- C3 witness: a concrete active Sun object over `ℚ` survives
`removeFinished` and is untouched by `setCollided`. -/
theorem c3_witness :
    (⟨"Sun", 0, 0, 0, 0, 0, 0, 0, 1, 1, OBJECT_STATE.ACTIVE, []⟩ :
        GravSimObject ℚ).name = SUN_NAME
    ∧ (⟨"Sun", 0, 0, 0, 0, 0, 0, 0, 1, 1, OBJECT_STATE.ACTIVE, []⟩ :
        GravSimObject ℚ).state = OBJECT_STATE.ACTIVE
    ∧ (⟨"Sun", 0, 0, 0, 0, 0, 0, 0, 1, 1, OBJECT_STATE.ACTIVE, []⟩ :
        GravSimObject ℚ)
      ∈ removeFinished [⟨"Sun", 0, 0, 0, 0, 0, 0, 0, 1, 1, OBJECT_STATE.ACTIVE, []⟩]
    ∧ (⟨"Sun", 0, 0, 0, 0, 0, 0, 0, 1, 1, OBJECT_STATE.ACTIVE, []⟩ :
        GravSimObject ℚ).setCollided
      = ⟨"Sun", 0, 0, 0, 0, 0, 0, 0, 1, 1, OBJECT_STATE.ACTIVE, []⟩ := by
  refine ⟨rfl, rfl, ?_, ?_⟩
  · exact c3_sun_override.2.2 _ _ (by simp) rfl rfl
  · exact c3_sun_override.1 _ rfl

/-! ### Claim C5: collision resolution marks exactly one side -/

/-- C5: the pair resolution of `collisionCheck` (gravsim_calc.js lines
111-121).  For a colliding pair at positions `i ≠ j` with distinct ids: when
`obj.mass < other.mass` the first body is marked and the second is unchanged;
otherwise (including exactly equal masses, which deterministically fall into
the `else` branch) the second body is marked and the first is unchanged — so
exactly one side of the pair is marked, never both and never neither. -/
theorem c5_pair_resolution
    (s : List (Obj K)) (i j : ℕ) (obj other : Obj K)
    (hi : s[i]? = some obj) (hj : s[j]? = some other) (hij : i ≠ j)
    (hid : obj.id ≠ other.id) (hcol : isColliding obj other = true) :
    ((obj.mass < other.mass →
        (checkPairAt s i j)[i]? = some { obj with collided := true }
        ∧ (checkPairAt s i j)[j]? = some other)
      ∧ (¬ obj.mass < other.mass →
        (checkPairAt s i j)[j]? = some { other with collided := true }
        ∧ (checkPairAt s i j)[i]? = some obj))
    ∧ (obj.mass = other.mass →
        (checkPairAt s i j)[j]? = some { other with collided := true }
        ∧ (checkPairAt s i j)[i]? = some obj) := by
  have hilen : i < s.length := (List.getElem?_eq_some_iff.mp hi).1
  have hjlen : j < s.length := (List.getElem?_eq_some_iff.mp hj).1
  have hmain : checkPairAt s i j
      = if obj.mass < other.mass then setCollidedAt s i else setCollidedAt s j := by
    simp only [checkPairAt, hi, hj]
    rw [if_pos hid, if_pos hcol]
  have hseti : setCollidedAt s i = s.set i { obj with collided := true } := by
    simp only [setCollidedAt, hi]
  have hsetj : setCollidedAt s j = s.set j { other with collided := true } := by
    simp only [setCollidedAt, hj]
  refine ⟨⟨fun hlt => ?_, fun hge => ?_⟩, fun heq => ?_⟩
  · rw [hmain, if_pos hlt, hseti]
    exact ⟨List.getElem?_set_self hilen,
      (List.getElem?_set_ne hij).trans hj⟩
  · rw [hmain, if_neg hge, hsetj]
    exact ⟨List.getElem?_set_self hjlen,
      (List.getElem?_set_ne (Ne.symm hij)).trans hi⟩
  · rw [hmain, if_neg (not_lt_of_le (le_of_eq heq.symm)), hsetj]
    exact ⟨List.getElem?_set_self hjlen,
      (List.getElem?_set_ne (Ne.symm hij)).trans hi⟩

/-- C5 witness: the resolution evaluated over `ℚ` on an overlapping pair with
masses 1 and 2 (the lighter first body is marked, the heavier second one is
untouched) and on an equal-mass overlapping pair (the second body is marked). -/
theorem c5_witness :
    ((checkPairAt [(⟨0, 0, 0, 0, 0, 0, 0, 1, 1, false⟩ : Obj ℚ),
        ⟨1, 1, 0, 0, 0, 0, 0, 2, 1, false⟩] 0 1)[0]?
      = some ⟨0, 0, 0, 0, 0, 0, 0, 1, 1, true⟩
    ∧ (checkPairAt [(⟨0, 0, 0, 0, 0, 0, 0, 1, 1, false⟩ : Obj ℚ),
        ⟨1, 1, 0, 0, 0, 0, 0, 2, 1, false⟩] 0 1)[1]?
      = some ⟨1, 1, 0, 0, 0, 0, 0, 2, 1, false⟩)
    ∧ ((checkPairAt [(⟨0, 0, 0, 0, 0, 0, 0, 1, 1, false⟩ : Obj ℚ),
        ⟨1, 1, 0, 0, 0, 0, 0, 1, 1, false⟩] 0 1)[1]?
      = some ⟨1, 1, 0, 0, 0, 0, 0, 1, 1, true⟩
    ∧ (checkPairAt [(⟨0, 0, 0, 0, 0, 0, 0, 1, 1, false⟩ : Obj ℚ),
        ⟨1, 1, 0, 0, 0, 0, 0, 1, 1, false⟩] 0 1)[0]?
      = some ⟨0, 0, 0, 0, 0, 0, 0, 1, 1, false⟩) := by
  constructor
  · refine (c5_pair_resolution
      [(⟨0, 0, 0, 0, 0, 0, 0, 1, 1, false⟩ : Obj ℚ), ⟨1, 1, 0, 0, 0, 0, 0, 2, 1, false⟩]
      0 1 ⟨0, 0, 0, 0, 0, 0, 0, 1, 1, false⟩ ⟨1, 1, 0, 0, 0, 0, 0, 2, 1, false⟩
      rfl rfl (by norm_num) (by norm_num) ?_).1.1 (by norm_num)
    simp only [isColliding]
    norm_num
  · refine (c5_pair_resolution
      [(⟨0, 0, 0, 0, 0, 0, 0, 1, 1, false⟩ : Obj ℚ), ⟨1, 1, 0, 0, 0, 0, 0, 1, 1, false⟩]
      0 1 ⟨0, 0, 0, 0, 0, 0, 0, 1, 1, false⟩ ⟨1, 1, 0, 0, 0, 0, 0, 1, 1, false⟩
      rfl rfl (by norm_num) (by norm_num) ?_).2 (by norm_num)
    simp only [isColliding]
    norm_num

/-! ### Gravity accumulation lemmas (used by C2, C6, C7) -/

lemma applyGravity_id (sqrt : K → K) (o1 o2 : Obj K) :
    (applyGravity sqrt o1 o2).id = o1.id := rfl

lemma applyGravity_ax_eq (sqrt : K → K) (o1 o2 : Obj K) :
    (applyGravity sqrt o1 o2).ax = o1.ax + specAccelX sqrt o1 o2 := rfl

lemma applyGravity_ay_eq (sqrt : K → K) (o1 o2 : Obj K) :
    (applyGravity sqrt o1 o2).ay = o1.ay + specAccelY sqrt o1 o2 := rfl

lemma gravFold_preserves (sqrt : K → K) (l : List (Obj K)) (a : Obj K) :
    ((l.foldl
        (fun cur other => if cur.id ≠ other.id then applyGravity sqrt cur other else cur)
        a).id = a.id
      ∧ (l.foldl
        (fun cur other => if cur.id ≠ other.id then applyGravity sqrt cur other else cur)
        a).x = a.x
      ∧ (l.foldl
        (fun cur other => if cur.id ≠ other.id then applyGravity sqrt cur other else cur)
        a).y = a.y)
    ∧ ((l.foldl
        (fun cur other => if cur.id ≠ other.id then applyGravity sqrt cur other else cur)
        a).vx = a.vx
      ∧ (l.foldl
        (fun cur other => if cur.id ≠ other.id then applyGravity sqrt cur other else cur)
        a).vy = a.vy)
    ∧ ((l.foldl
        (fun cur other => if cur.id ≠ other.id then applyGravity sqrt cur other else cur)
        a).mass = a.mass
      ∧ (l.foldl
        (fun cur other => if cur.id ≠ other.id then applyGravity sqrt cur other else cur)
        a).radius = a.radius
      ∧ (l.foldl
        (fun cur other => if cur.id ≠ other.id then applyGravity sqrt cur other else cur)
        a).collided = a.collided) := by
  induction l generalizing a with
  | nil => exact ⟨⟨rfl, rfl, rfl⟩, ⟨rfl, rfl⟩, rfl, rfl, rfl⟩
  | cons hd tl ih =>
    simp only [List.foldl_cons]
    by_cases h : a.id ≠ hd.id
    · rw [if_pos h]
      exact ih (applyGravity sqrt a hd)
    · rw [if_neg h]
      exact ih a

lemma gravFold_ax (sqrt : K → K) (l : List (Obj K)) (a : Obj K) :
    (l.foldl
        (fun cur other => if cur.id ≠ other.id then applyGravity sqrt cur other else cur)
        a).ax
      = a.ax + ((l.filter (fun o => decide (a.id ≠ o.id))).map
          (fun o => specAccelX sqrt a o)).sum := by
  induction l generalizing a with
  | nil => simp
  | cons hd tl ih =>
    simp only [List.foldl_cons, List.filter_cons]
    by_cases h : a.id ≠ hd.id
    · rw [if_pos h]
      have e1 : (tl.foldl
          (fun cur other => if cur.id ≠ other.id then applyGravity sqrt cur other else cur)
          (applyGravity sqrt a hd)).ax
          = (a.ax + specAccelX sqrt a hd)
            + ((tl.filter (fun o => decide (a.id ≠ o.id))).map
                (fun o => specAccelX sqrt a o)).sum := ih (applyGravity sqrt a hd)
      rw [e1, if_pos (decide_eq_true h), List.map_cons, List.sum_cons, add_assoc]
    · rw [if_neg h, if_neg (by simpa using h)]
      exact ih a

lemma gravFold_ay (sqrt : K → K) (l : List (Obj K)) (a : Obj K) :
    (l.foldl
        (fun cur other => if cur.id ≠ other.id then applyGravity sqrt cur other else cur)
        a).ay
      = a.ay + ((l.filter (fun o => decide (a.id ≠ o.id))).map
          (fun o => specAccelY sqrt a o)).sum := by
  induction l generalizing a with
  | nil => simp
  | cons hd tl ih =>
    simp only [List.foldl_cons, List.filter_cons]
    by_cases h : a.id ≠ hd.id
    · rw [if_pos h]
      have e1 : (tl.foldl
          (fun cur other => if cur.id ≠ other.id then applyGravity sqrt cur other else cur)
          (applyGravity sqrt a hd)).ay
          = (a.ay + specAccelY sqrt a hd)
            + ((tl.filter (fun o => decide (a.id ≠ o.id))).map
                (fun o => specAccelY sqrt a o)).sum := ih (applyGravity sqrt a hd)
      rw [e1, if_pos (decide_eq_true h), List.map_cons, List.sum_cons, add_assoc]
    · rw [if_neg h, if_neg (by simpa using h)]
      exact ih a

lemma updateGravity_preserves (sqrt : K → K) (objs : List (Obj K)) (obj : Obj K) :
    ((updateGravity sqrt objs obj).id = obj.id
      ∧ (updateGravity sqrt objs obj).x = obj.x
      ∧ (updateGravity sqrt objs obj).y = obj.y)
    ∧ ((updateGravity sqrt objs obj).vx = obj.vx
      ∧ (updateGravity sqrt objs obj).vy = obj.vy)
    ∧ ((updateGravity sqrt objs obj).mass = obj.mass
      ∧ (updateGravity sqrt objs obj).radius = obj.radius
      ∧ (updateGravity sqrt objs obj).collided = obj.collided) :=
  gravFold_preserves sqrt objs { obj with ax := 0, ay := 0 }

lemma updateGravity_ax (sqrt : K → K) (objs : List (Obj K)) (obj : Obj K) :
    (updateGravity sqrt objs obj).ax
      = ((objs.filter (fun o => decide (obj.id ≠ o.id))).map
          (fun o => specAccelX sqrt obj o)).sum := by
  have h : (updateGravity sqrt objs obj).ax
      = 0 + ((objs.filter (fun o => decide (obj.id ≠ o.id))).map
          (fun o => specAccelX sqrt obj o)).sum :=
    gravFold_ax sqrt objs { obj with ax := 0, ay := 0 }
  rw [zero_add] at h
  exact h

lemma updateGravity_ay (sqrt : K → K) (objs : List (Obj K)) (obj : Obj K) :
    (updateGravity sqrt objs obj).ay
      = ((objs.filter (fun o => decide (obj.id ≠ o.id))).map
          (fun o => specAccelY sqrt obj o)).sum := by
  have h : (updateGravity sqrt objs obj).ay
      = 0 + ((objs.filter (fun o => decide (obj.id ≠ o.id))).map
          (fun o => specAccelY sqrt obj o)).sum :=
    gravFold_ay sqrt objs { obj with ax := 0, ay := 0 }
  rw [zero_add] at h
  exact h

/-! ### Claim C7: the gravity accumulation -/

/-- C7: one invocation of `updateGravity` on a body `b` yields exactly the sum,
over all list entries `o` with `o.id ≠ b.id`, of the spec's contribution
`(G·mass_b·mass_o/distSq)/mass_b` directed along `(dx, dy)/dist` (with
`distSq = max(dx² + dy², (radius_b + radius_o)²)` and `dist = √distSq`),
accumulated from zero — and it changes nothing but `ax` and `ay`. -/
theorem c7_updateGravity_accumulates (objs : List (Obj ℝ)) (obj : Obj ℝ) :
    ((updateGravity Real.sqrt objs obj).ax
      = ((objs.filter (fun o => decide (obj.id ≠ o.id))).map
          (fun o => specAccelX Real.sqrt obj o)).sum
    ∧ (updateGravity Real.sqrt objs obj).ay
      = ((objs.filter (fun o => decide (obj.id ≠ o.id))).map
          (fun o => specAccelY Real.sqrt obj o)).sum)
    ∧ ((updateGravity Real.sqrt objs obj).id = obj.id
      ∧ (updateGravity Real.sqrt objs obj).x = obj.x
      ∧ (updateGravity Real.sqrt objs obj).y = obj.y
      ∧ (updateGravity Real.sqrt objs obj).vx = obj.vx
      ∧ (updateGravity Real.sqrt objs obj).vy = obj.vy)
    ∧ ((updateGravity Real.sqrt objs obj).mass = obj.mass
      ∧ (updateGravity Real.sqrt objs obj).radius = obj.radius
      ∧ (updateGravity Real.sqrt objs obj).collided = obj.collided) := by
  obtain ⟨⟨h1, h2, h3⟩, ⟨h4, h5⟩, h6, h7, h8⟩ :=
    updateGravity_preserves Real.sqrt objs obj
  exact ⟨⟨updateGravity_ax Real.sqrt objs obj, updateGravity_ay Real.sqrt objs obj⟩,
    ⟨h1, h2, h3, h4, h5⟩, h6, h7, h8⟩

/-! ### Claim C6: the two-stage velocity-Verlet update -/

lemma applyCap_x (sqrt : K → K) (o : Obj K) : (applyCap sqrt o).x = o.x := by
  simp only [applyCap]
  split <;> rfl

lemma applyCap_y (sqrt : K → K) (o : Obj K) : (applyCap sqrt o).y = o.y := by
  simp only [applyCap]
  split <;> rfl

lemma applyCap_of_not_gt (sqrt : K → K) (o : Obj K)
    (h : ¬ sqrt (o.vx * o.vx + o.vy * o.vy) > C) : applyCap sqrt o = o := by
  simp only [applyCap]
  exact if_neg h

lemma updateBody_eq_cap (sqrt : K → K) (objs : List (Obj K)) (dt : K)
    (obj : Obj K) :
    updateBody sqrt objs dt obj
      = applyCap sqrt
        { updateGravity sqrt objs (specMoved sqrt objs dt obj) with
            vx := specFinalVx sqrt objs dt obj
            vy := specFinalVy sqrt objs dt obj } := by
  obtain ⟨⟨hid1, hx1, hy1⟩, ⟨hvx1, hvy1⟩, hm1, hr1, hc1⟩ :=
    updateGravity_preserves sqrt objs obj
  have hmv : ({ updateGravity sqrt objs obj with
      x := (updateGravity sqrt objs obj).x
        + ((updateGravity sqrt objs obj).vx
            + (updateGravity sqrt objs obj).ax * dt / 2) * dt
      y := (updateGravity sqrt objs obj).y
        + ((updateGravity sqrt objs obj).vy
            + (updateGravity sqrt objs obj).ay * dt / 2) * dt } : Obj K)
      = specMoved sqrt objs dt obj := by
    apply Obj.ext <;>
      simp [specMoved, specHalfVx, specHalfVy, hid1, hx1, hy1, hvx1, hvy1, hm1, hr1, hc1]
  simp only [updateBody]
  rw [hmv]
  simp only [specFinalVx, specFinalVy, specHalfVx, specHalfVy, hvx1, hvy1]

/-- C6: each per-body step of the tick follows the two-stage velocity-Verlet
scheme, componentwise in x and y: with the acceleration recomputed at the
current position, the half-step velocity is `v_half = v + a·dt/2`, the
position advances by `x += v_half·dt`, the acceleration is recomputed at the
new position, and — whenever the speed cap does not fire — the velocity is
completed as `v = v_half + a_new·dt/2`. -/
theorem c6_velocity_verlet (sqrt : K → K) (objs : List (Obj K)) (dt : K)
    (obj : Obj K) :
    ((updateBody sqrt objs dt obj).x = obj.x + specHalfVx sqrt objs dt obj * dt
      ∧ (updateBody sqrt objs dt obj).y = obj.y + specHalfVy sqrt objs dt obj * dt)
    ∧ (sqrt (specFinalVx sqrt objs dt obj * specFinalVx sqrt objs dt obj
          + specFinalVy sqrt objs dt obj * specFinalVy sqrt objs dt obj) ≤ C →
        (updateBody sqrt objs dt obj).vx = specFinalVx sqrt objs dt obj
        ∧ (updateBody sqrt objs dt obj).vy = specFinalVy sqrt objs dt obj) := by
  obtain ⟨⟨_, hx2, hy2⟩, _, _⟩ :=
    updateGravity_preserves sqrt objs (specMoved sqrt objs dt obj)
  refine ⟨⟨?_, ?_⟩, fun hcap => ?_⟩
  · rw [updateBody_eq_cap, applyCap_x]
    show (updateGravity sqrt objs (specMoved sqrt objs dt obj)).x
      = obj.x + specHalfVx sqrt objs dt obj * dt
    rw [hx2]
    rfl
  · rw [updateBody_eq_cap, applyCap_y]
    show (updateGravity sqrt objs (specMoved sqrt objs dt obj)).y
      = obj.y + specHalfVy sqrt objs dt obj * dt
    rw [hy2]
    rfl
  · rw [updateBody_eq_cap, applyCap_of_not_gt _ _ (not_lt.mpr hcap)]
    exact ⟨rfl, rfl⟩

/-- C6 witness: the scheme evaluated over `ℚ` (with the abstract square root
instantiated by the identity) on a singleton system, where both gravity
passes vanish and the cap does not fire. -/
theorem c6_witness :
    ((fun x => x)
        (specFinalVx (fun x => x) [(⟨5, 3, 4, 1, 0, 7, 7, 2, 1, false⟩ : Obj ℚ)] 2
            ⟨5, 3, 4, 1, 0, 7, 7, 2, 1, false⟩
          * specFinalVx (fun x => x) [(⟨5, 3, 4, 1, 0, 7, 7, 2, 1, false⟩ : Obj ℚ)] 2
            ⟨5, 3, 4, 1, 0, 7, 7, 2, 1, false⟩
        + specFinalVy (fun x => x) [(⟨5, 3, 4, 1, 0, 7, 7, 2, 1, false⟩ : Obj ℚ)] 2
            ⟨5, 3, 4, 1, 0, 7, 7, 2, 1, false⟩
          * specFinalVy (fun x => x) [(⟨5, 3, 4, 1, 0, 7, 7, 2, 1, false⟩ : Obj ℚ)] 2
            ⟨5, 3, 4, 1, 0, 7, 7, 2, 1, false⟩) ≤ C)
            ∧ (updateBody (fun x => x) [(⟨5, 3, 4, 1, 0, 7, 7, 2, 1, false⟩ : Obj ℚ)] 2
        ⟨5, 3, 4, 1, 0, 7, 7, 2, 1, false⟩).vx
      = specFinalVx (fun x => x) [(⟨5, 3, 4, 1, 0, 7, 7, 2, 1, false⟩ : Obj ℚ)] 2
        ⟨5, 3, 4, 1, 0, 7, 7, 2, 1, false⟩ := by
  have hcap : (fun x => x)
      (specFinalVx (fun x => x) [(⟨5, 3, 4, 1, 0, 7, 7, 2, 1, false⟩ : Obj ℚ)] 2
          ⟨5, 3, 4, 1, 0, 7, 7, 2, 1, false⟩
        * specFinalVx (fun x => x) [(⟨5, 3, 4, 1, 0, 7, 7, 2, 1, false⟩ : Obj ℚ)] 2
          ⟨5, 3, 4, 1, 0, 7, 7, 2, 1, false⟩
      + specFinalVy (fun x => x) [(⟨5, 3, 4, 1, 0, 7, 7, 2, 1, false⟩ : Obj ℚ)] 2
          ⟨5, 3, 4, 1, 0, 7, 7, 2, 1, false⟩
        * specFinalVy (fun x => x) [(⟨5, 3, 4, 1, 0, 7, 7, 2, 1, false⟩ : Obj ℚ)] 2
          ⟨5, 3, 4, 1, 0, 7, 7, 2, 1, false⟩) ≤ (C : ℚ) := by
    simp only [specFinalVx, specFinalVy, specHalfVx, specHalfVy, specMoved,
      updateGravity, applyGravity, gravDistSq, List.foldl_cons, List.foldl_nil]
    norm_num [C]
  exact ⟨hcap,
    (c6_velocity_verlet (fun x => x) [(⟨5, 3, 4, 1, 0, 7, 7, 2, 1, false⟩ : Obj ℚ)] 2
      ⟨5, 3, 4, 1, 0, 7, 7, 2, 1, false⟩).2 hcap |>.1⟩

/-! ### Structure of the tick loop (used by C2) -/

lemma moveLoopAux_spec (sqrt : K → K) (dt : K) (n : ℕ) (s : List (Obj K)) :
    ((List.range n).foldl
        (fun cur i =>
          match cur[i]? with
          | some obj => cur.set i (updateBody sqrt cur dt obj)
          | none => cur)
        s).length = s.length
    ∧ (∀ j o, j < n →
        ((List.range n).foldl
          (fun cur i =>
            match cur[i]? with
            | some obj => cur.set i (updateBody sqrt cur dt obj)
            | none => cur)
          s)[j]? = some o →
        ∃ (objs : List (Obj K)) (o₀ : Obj K), o = updateBody sqrt objs dt o₀) := by
  induction n with
  | zero => exact ⟨rfl, fun j o hj => absurd hj (Nat.not_lt_zero j)⟩
  | succ n ih =>
    rw [List.range_succ, List.foldl_append, List.foldl_cons, List.foldl_nil]
    obtain ⟨ihlen, ihspec⟩ := ih
    rcases hp : ((List.range n).foldl
        (fun cur i =>
          match cur[i]? with
          | some obj => cur.set i (updateBody sqrt cur dt obj)
          | none => cur)
        s)[n]? with _ | obj
    · refine ⟨by rw [hp]; exact ihlen, fun j o hj hget => ?_⟩
      rw [hp] at hget
      rcases Nat.lt_succ_iff_lt_or_eq.mp hj with hj' | hj'
      · exact ihspec j o hj' hget
      · subst hj'
        rw [hp] at hget
        exact absurd hget (by simp)
    · refine ⟨by rw [hp]; rw [List.length_set]; exact ihlen, fun j o hj hget => ?_⟩
      rw [hp] at hget
      rcases Nat.lt_succ_iff_lt_or_eq.mp hj with hj' | hj'
      · by_cases hjn : n = j
        · subst hjn
          rw [List.getElem?_set_self
            ((List.getElem?_eq_some_iff.mp hp).1)] at hget
          exact ⟨_, _, (Option.some_inj.mp hget).symm⟩
        · rw [List.getElem?_set_ne hjn] at hget
          exact ihspec j o hj' hget
      · subst hj'
        rw [List.getElem?_set_self ((List.getElem?_eq_some_iff.mp hp).1)] at hget
        exact ⟨_, _, (Option.some_inj.mp hget).symm⟩

lemma moveLoop_length (sqrt : K → K) (dt : K) (s : List (Obj K)) :
    (moveLoop sqrt dt s).length = s.length :=
  (moveLoopAux_spec sqrt dt s.length s).1

lemma moveLoop_elem (sqrt : K → K) (dt : K) (s : List (Obj K)) :
    ∀ o ∈ moveLoop sqrt dt s,
      ∃ (objs : List (Obj K)) (o₀ : Obj K), o = updateBody sqrt objs dt o₀ := by
  intro o ho
  obtain ⟨j, hj, hget⟩ := List.getElem_of_mem ho
  have hj' : j < s.length := by
    rw [← moveLoop_length sqrt dt s]
    exact hj
  refine (moveLoopAux_spec sqrt dt s.length s).2 j o hj' ?_
  show (moveLoop sqrt dt s)[j]? = some o
  rw [List.getElem?_eq_getElem hj, hget]

lemma markedFrom_refl (s : List (Obj K)) : MarkedFrom s s :=
  fun j o h => ⟨o, h, Or.inl rfl⟩

lemma markedFrom_setCollidedAt (s t : List (Obj K)) (k : ℕ)
    (h : MarkedFrom s t) : MarkedFrom s (setCollidedAt t k) := by
  intro j o hget
  rcases hk : t[k]? with _ | ok
  · rw [setCollidedAt, hk] at hget
    exact h j o hget
  · rw [setCollidedAt, hk] at hget
    by_cases hjk : k = j
    · subst hjk
      rw [List.getElem?_set_self ((List.getElem?_eq_some_iff.mp hk).1)] at hget
      obtain ⟨o₀, hs, hvar⟩ := h k ok hk
      refine ⟨o₀, hs, Or.inr ?_⟩
      rcases hvar with hv | hv
      · rw [← Option.some_inj.mp hget, hv]
      · rw [← Option.some_inj.mp hget, hv]
    · rw [List.getElem?_set_ne hjk] at hget
      exact h j o hget

lemma markedFrom_checkPairAt (s t : List (Obj K)) (i j : ℕ)
    (h : MarkedFrom s t) : MarkedFrom s (checkPairAt t i j) := by
  rw [checkPairAt]
  rcases t[i]? with _ | obj <;> rcases t[j]? with _ | other
  · exact h
  · exact h
  · exact h
  · dsimp only
    split
    · split
      · split
        · exact markedFrom_setCollidedAt s t i h
        · exact markedFrom_setCollidedAt s t j h
      · exact h
    · exact h

lemma markedFrom_collisionCheck (s : List (Obj K)) :
    MarkedFrom s (collisionCheck s) := by
  rw [collisionCheck]
  have inner : ∀ (l : List ℕ) (i : ℕ) (t : List (Obj K)), MarkedFrom s t →
      MarkedFrom s (l.foldl (fun cur2 j => checkPairAt cur2 i j) t) := by
    intro l
    induction l with
    | nil => exact fun i t h => h
    | cons hd tl ih =>
      intro i t h
      exact ih i _ (markedFrom_checkPairAt s t i hd h)
  have outer : ∀ (l : List ℕ) (t : List (Obj K)), MarkedFrom s t →
      MarkedFrom s (l.foldl
        (fun cur1 i =>
          (List.range' (i + 1) (s.length - (i + 1))).foldl
            (fun cur2 j => checkPairAt cur2 i j) cur1)
        t) := by
    intro l
    induction l with
    | nil => exact fun t h => h
    | cons hd tl ih =>
      intro t h
      exact ih _ (inner _ hd t h)
  exact outer (List.range s.length) s (markedFrom_refl s)

/-! ### Claim C2: the speed cap -/

lemma C_pos : (0 : ℝ) < C := by
  norm_num [C]

lemma speed_applyCap_of_gt (o : Obj ℝ) (h : C < speed o) :
    speed (applyCap Real.sqrt o) = C := by
  have hva : (0 : ℝ) ≤ o.vx * o.vx + o.vy * o.vy :=
    add_nonneg (mul_self_nonneg _) (mul_self_nonneg _)
  have hv : (0 : ℝ) < speed o := lt_trans C_pos h
  have hv2 : speed o * speed o = o.vx * o.vx + o.vy * o.vy :=
    Real.mul_self_sqrt hva
  have happ : applyCap Real.sqrt o
      = { o with vx := C * (o.vx / speed o), vy := C * (o.vy / speed o) } := by
    simp only [applyCap]
    exact if_pos h
  rw [happ]
  show Real.sqrt ((C * (o.vx / speed o)) * (C * (o.vx / speed o))
      + (C * (o.vy / speed o)) * (C * (o.vy / speed o))) = C
  have hinner : (C * (o.vx / speed o)) * (C * (o.vx / speed o))
      + (C * (o.vy / speed o)) * (C * (o.vy / speed o))
      = (C * C) * ((o.vx * o.vx + o.vy * o.vy) / (speed o * speed o)) := by
    ring
  rw [hinner, ← hv2, div_self (ne_of_gt (mul_pos hv hv)), mul_one,
    Real.sqrt_mul_self C_pos.le]

lemma speed_applyCap_le (o : Obj ℝ) : speed (applyCap Real.sqrt o) ≤ C := by
  by_cases h : C < speed o
  · exact le_of_eq (speed_applyCap_of_gt o h)
  · have he : applyCap Real.sqrt o = o := applyCap_of_not_gt _ _ h
    rw [he]
    exact not_lt.mp h

lemma updateBody_speed_le (objs : List (Obj ℝ)) (dt : ℝ) (obj : Obj ℝ) :
    speed (updateBody Real.sqrt objs dt obj) ≤ C := by
  rw [updateBody_eq_cap]
  exact speed_applyCap_le _

/-- C2: the speed cap holds exactly.  Every per-body step of the tick yields
`speed() ≤ C`; whenever the integrated velocity's magnitude exceeds `C` the
cap rescales it to magnitude exactly `C`; and therefore every body in the
state produced by a full tick (integration loop, collision check, purge)
satisfies `speed() ≤ C`. -/
theorem c2_speed_cap :
    (∀ (objs : List (Obj ℝ)) (dt : ℝ) (obj : Obj ℝ),
        speed (updateBody Real.sqrt objs dt obj) ≤ C)
    ∧ (∀ o : Obj ℝ, C < speed o → speed (applyCap Real.sqrt o) = C)
    ∧ (∀ (dt : ℝ) (s : List (Obj ℝ)),
        ∀ o ∈ (update Real.sqrt dt s).2, speed o ≤ C) := by
  refine ⟨updateBody_speed_le, speed_applyCap_of_gt, fun dt s o ho => ?_⟩
  have ho' : o ∈ collisionCheck (moveLoop Real.sqrt dt s) :=
    (List.mem_filter.mp ho).1
  obtain ⟨j, hj, hget⟩ := List.getElem_of_mem ho'
  obtain ⟨o₀, hs0, hvar⟩ := markedFrom_collisionCheck (moveLoop Real.sqrt dt s)
    j o (by rw [List.getElem?_eq_getElem hj, hget])
  have hmem0 : o₀ ∈ moveLoop Real.sqrt dt s := List.getElem?_mem hs0
  obtain ⟨objs, oo, hupd⟩ := moveLoop_elem Real.sqrt dt s o₀ hmem0
  have hsp : speed o = speed o₀ := by
    rcases hvar with hv | hv
    · rw [hv]
    · rw [hv]
      rfl
  rw [hsp, hupd]
  exact updateBody_speed_le objs dt oo

/-- C2 witness: a body moving at twice the speed of light along the x axis is
rescaled to speed exactly `C`. -/
theorem c2_witness :
    (C : ℝ) < speed ⟨0, 0, 0, 599584916, 0, 0, 0, 1, 1, false⟩
    ∧ speed (applyCap Real.sqrt ⟨0, 0, 0, 599584916, 0, 0, 0, 1, 1, false⟩) = C := by
  have hs : speed (⟨0, 0, 0, 599584916, 0, 0, 0, 1, 1, false⟩ : Obj ℝ)
      = 599584916 := by
    show Real.sqrt ((599584916 : ℝ) * 599584916 + 0 * 0) = 599584916
    rw [show (599584916 : ℝ) * 599584916 + 0 * 0 = 599584916 * 599584916 by ring,
      Real.sqrt_mul_self (by norm_num)]
  have h : (C : ℝ) < speed ⟨0, 0, 0, 599584916, 0, 0, 0, 1, 1, false⟩ := by
    rw [hs]
    norm_num [C]
  exact ⟨h, c2_speed_cap.2.1 _ h⟩

/-! ### Claim C9: the singularity guard -/

/-- C9: the lower clamp of the squared distance by `(radiusSum)²` is the sole
guard against the force singularity: for bodies with positive radii (which is
what the `add` command produces whenever the supplied radius is nonnegative
or absent, since `0` falls back to the default `1`), the denominators
`distSq` and `dist = √distSq` of `applyGravity` are nonzero. -/
theorem c9_no_singularity :
    (∀ o1 o2 : Obj ℝ, 0 < o1.radius → 0 < o2.radius →
        gravDistSq o1 o2 ≠ 0 ∧ Real.sqrt (gravDistSq o1 o2) ≠ 0)
    ∧ (∀ r : Option ℝ, (∀ x, r = some x → 0 ≤ x) → 0 < jsOr r 1) := by
  constructor
  · intro o1 o2 h1 h2
    have hrad : (0 : ℝ) < (o1.radius + o2.radius) * (o1.radius + o2.radius) :=
      mul_pos (add_pos h1 h2) (add_pos h1 h2)
    have hpos : 0 < gravDistSq o1 o2 :=
      lt_of_lt_of_le hrad (le_max_right _ _)
    exact ⟨ne_of_gt hpos, ne_of_gt (Real.sqrt_pos.mpr hpos)⟩
  · intro r hr
    match r with
    | none => norm_num [jsOr]
    | some x =>
      have hx : (0 : ℝ) ≤ x := hr x rfl
      by_cases hx0 : x = 0
      · simp [jsOr, hx0]
      · simp only [jsOr, if_neg hx0]
        exact lt_of_le_of_ne hx (Ne.symm hx0)

/-- C9 witness: two coincident unit-radius bodies (the worst case for the
distance) still give nonzero denominators, and an `add` with supplied radius
`0` stores the positive default. -/
theorem c9_witness :
    ((0 : ℝ) < (⟨0, 0, 0, 0, 0, 0, 0, 1, 1, false⟩ : Obj ℝ).radius
      ∧ gravDistSq (⟨0, 0, 0, 0, 0, 0, 0, 1, 1, false⟩ : Obj ℝ)
          ⟨1, 0, 0, 0, 0, 0, 0, 1, 1, false⟩ ≠ 0
      ∧ Real.sqrt (gravDistSq (⟨0, 0, 0, 0, 0, 0, 0, 1, 1, false⟩ : Obj ℝ)
          ⟨1, 0, 0, 0, 0, 0, 0, 1, 1, false⟩) ≠ 0)
    ∧ 0 < jsOr (some (0 : ℝ)) 1 := by
  have h1 : (0 : ℝ) < (⟨0, 0, 0, 0, 0, 0, 0, 1, 1, false⟩ : Obj ℝ).radius := by
    norm_num
  have hmain := c9_no_singularity.1 ⟨0, 0, 0, 0, 0, 0, 0, 1, 1, false⟩
    ⟨1, 0, 0, 0, 0, 0, 0, 1, 1, false⟩ h1 h1
  exact ⟨⟨h1, hmain.1, hmain.2⟩,
    c9_no_singularity.2 (some 0) (fun x hx => by
      rw [← Option.some_inj.mp hx])⟩

/-! ### Claim C8: tick report and purge ordering -/

/-- C8: within one tick, the report is built by `convertToMessage` from the
full post-collision-check list — before any purge — so every body, marked or
surviving, of that tick appears in the report (with its `collided` flag, and
as many times as it occurs in the pre-purge state, i.e. exactly once for a
unique id); the purge filter is applied to the same list only afterwards, so
a marked body is absent from the resulting state (hence from every later
report) and every surviving body is unmarked. -/
theorem c8_report_then_purge (sqrt : K → K) (dt : K) (s : List (Obj K)) :
    ((update sqrt dt s).1 = convertToMessage (collisionCheck (moveLoop sqrt dt s))
      ∧ (update sqrt dt s).2
        = (collisionCheck (moveLoop sqrt dt s)).filter (fun o => !o.collided))
    ∧ (∀ o, o ∈ collisionCheck (moveLoop sqrt dt s) →
        toMessage o ∈ (update sqrt dt s).1
        ∧ (toMessage o).collided = o.collided
        ∧ (o.collided = true → o ∉ (update sqrt dt s).2))
    ∧ (∀ o, o ∈ (update sqrt dt s).2 → o.collided = false)
    ∧ (∀ i : ℤ,
        ((update sqrt dt s).1.filter (fun m => decide (m.id = i))).length
          = ((collisionCheck (moveLoop sqrt dt s)).filter
              (fun o => decide (o.id = i))).length) := by
  refine ⟨⟨rfl, rfl⟩, fun o ho => ⟨?_, ?_, fun hcol hmem => ?_⟩, fun o ho => ?_, fun i => ?_⟩
  · exact List.mem_map_of_mem toMessage ho
  · show (o.collided || false) = o.collided
    exact Bool.or_false o.collided
  · have := (List.mem_filter.mp hmem).2
    rw [hcol] at this
    simp at this
  · have := (List.mem_filter.mp ho).2
    simpa using this
  · show ((convertToMessage (collisionCheck (moveLoop sqrt dt s))).filter
        (fun m => decide (m.id = i))).length = _
    simp only [convertToMessage]
    rw [List.filter_map, List.length_map]
    rfl

/-- C8 witness: a concrete two-body tick over `ℚ` (abstract square root `2`,
`dt = 0`): the lighter body is marked, shows up in that tick's report with
`collided = true`, and is gone from the post-purge state. -/
theorem c8_witness :
    (⟨0, 0, 0, 0, 0, 66743 / 4000000000000000, 0, 1, 1, true⟩ : Obj ℚ)
      ∈ collisionCheck (moveLoop (fun _ => 2) 0
        [⟨0, 0, 0, 0, 0, 0, 0, 1, 1, false⟩, ⟨1, 1, 0, 0, 0, 0, 0, 2, 1, false⟩])
    ∧ (⟨0, 0, 0, 0, 0, 66743 / 4000000000000000, 0, 1, 1, true⟩ : Obj ℚ).collided = true
    ∧ toMessage (⟨0, 0, 0, 0, 0, 66743 / 4000000000000000, 0, 1, 1, true⟩ : Obj ℚ)
      ∈ (update (fun _ => 2) 0
        [(⟨0, 0, 0, 0, 0, 0, 0, 1, 1, false⟩ : Obj ℚ), ⟨1, 1, 0, 0, 0, 0, 0, 2, 1, false⟩]).1
    ∧ (⟨0, 0, 0, 0, 0, 66743 / 4000000000000000, 0, 1, 1, true⟩ : Obj ℚ)
      ∉ (update (fun _ => 2) 0
        [(⟨0, 0, 0, 0, 0, 0, 0, 1, 1, false⟩ : Obj ℚ), ⟨1, 1, 0, 0, 0, 0, 0, 2, 1, false⟩]).2 := by
  have hmem : (⟨0, 0, 0, 0, 0, 66743 / 4000000000000000, 0, 1, 1, true⟩ : Obj ℚ)
      ∈ collisionCheck (moveLoop (fun _ => 2) 0
        [⟨0, 0, 0, 0, 0, 0, 0, 1, 1, false⟩, ⟨1, 1, 0, 0, 0, 0, 0, 2, 1, false⟩]) := by
    simp only [moveLoop, updateBody, updateGravity, applyGravity, applyCap,
      gravDistSq, collisionCheck, checkPairAt, setCollidedAt, isColliding,
      List.foldl_cons, List.foldl_nil, G, C]
    norm_num [List.range_succ]
  have h := (c8_report_then_purge (fun _ => (2 : ℚ)) 0
    [⟨0, 0, 0, 0, 0, 0, 0, 1, 1, false⟩, ⟨1, 1, 0, 0, 0, 0, 0, 2, 1, false⟩]).2.1
    ⟨0, 0, 0, 0, 0, 66743 / 4000000000000000, 0, 1, 1, true⟩ hmem
  exact ⟨hmem, rfl, h.1, h.2.2 rfl⟩

/-! ### Claim C1: continuous (sub-step) collision detection -/

/-- C1 counterexample: two bodies closing at speed 20 with `radiusSum = 2`,
4 apart at tick start.  Their squared start distance 16 exceeds
`radiusSum² = 4`; at the sub-step `dt/5` (with `dt = 1`) their Taylor
extrapolated positions coincide, i.e. they pass through each other inside the
tick; yet `isColliding` returns `false` and `collisionCheck` marks neither
body, so the pair is not detected as colliding. -/
theorem c1_counterexample :
    isColliding (⟨0, 0, 0, 10, 0, 0, 0, 1, 1, false⟩ : Obj ℚ)
        ⟨1, 4, 0, -10, 0, 0, 0, 1, 1, false⟩ = false
    ∧ ((4 : ℚ) - 0) * (4 - 0) + (0 - 0) * (0 - 0) > (1 + 1) * (1 + 1)
    ∧ getXt (⟨1, 4, 0, -10, 0, 0, 0, 1, 1, false⟩ : Obj ℚ) (1 / 5)
        - getXt (⟨0, 0, 0, 10, 0, 0, 0, 1, 1, false⟩ : Obj ℚ) (1 / 5) = 0
    ∧ getYt (⟨1, 4, 0, -10, 0, 0, 0, 1, 1, false⟩ : Obj ℚ) (1 / 5)
        - getYt (⟨0, 0, 0, 10, 0, 0, 0, 1, 1, false⟩ : Obj ℚ) (1 / 5) = 0
    ∧ (collisionCheck [(⟨0, 0, 0, 10, 0, 0, 0, 1, 1, false⟩ : Obj ℚ),
        ⟨1, 4, 0, -10, 0, 0, 0, 1, 1, false⟩]).all (fun o => !o.collided) = true := by
  refine ⟨?_, by norm_num, ?_, ?_, ?_⟩
  · simp only [isColliding]
    norm_num
  · simp only [getXt]
    norm_num
  · simp only [getYt]
    norm_num
  · simp only [collisionCheck, checkPairAt, setCollidedAt, isColliding]
    norm_num [List.range_succ]

/-- C1 (amended): the collision test of gravsim_calc.js is the instantaneous
check only — `isColliding` holds exactly when the current squared distance is
below `radiusSum²`, and its outcome does not depend on the velocities or
accelerations of either body, so no sub-step sampling takes place and a pair
that passes through within one `dt` without overlapping at the tick boundary
is not detected. -/
theorem c1_isColliding_instantaneous_only :
    (∀ (o1 o2 : Obj K), isColliding o1 o2 = true ↔
        (o2.x - o1.x) * (o2.x - o1.x) + (o2.y - o1.y) * (o2.y - o1.y)
          < (o1.radius + o2.radius) * (o1.radius + o2.radius))
    ∧ (∀ (o1 o2 : Obj K) (a b c d a' b' c' d' : K),
        isColliding
          { o1 with vx := a, vy := b, ax := c, ay := d }
          { o2 with vx := a', vy := b', ax := c', ay := d' } = isColliding o1 o2) := by
  constructor
  · intro o1 o2
    simp only [isColliding, decide_eq_true_eq]
  · intro o1 o2 a b c d a' b' c' d'
    rfl

/-! ### Claim C4: `dt` computation -/

/-- C4 counterexample: when no wall time has elapsed between ticks
(`now = lastTime`), the computed `dt` is exactly zero — there is no clamp to a
positive minimum. -/
theorem c4_counterexample : computeDt (1000 : ℚ) 1000 1 = 0 := by
  norm_num [computeDt]

/-- C4 (amended): gravsim_calc.js applies no clamp to `dt`.  The value used by
integration is `(now - lastTime) * YEARS_PER_SECOND / TIME_SCALE * timeScale`;
it is positive whenever some wall time elapsed and the time scale is positive
(in particular on the first tick, where `lastTime = 0 < now`), but it is
exactly zero whenever the elapsed wall time is zero. -/
theorem c4_dt_no_clamp :
    (∀ now lastTime timeScale : K, lastTime < now → 0 < timeScale →
        0 < computeDt now lastTime timeScale)
    ∧ (∀ now timeScale : K, computeDt now now timeScale = 0) := by
  constructor
  · intro now lastTime timeScale h ht
    have h1 : (0 : K) < YEARS_PER_SECOND := by norm_num [YEARS_PER_SECOND]
    have h2 : (0 : K) < TIME_SCALE := by norm_num [TIME_SCALE]
    exact mul_pos (div_pos (mul_pos (sub_pos.mpr h) h1) h2) ht
  · intro now timeScale
    simp [computeDt]

/-- C4 witness: the amended statement evaluated at `now = 2`, `lastTime = 1`,
`timeScale = 1` over `ℚ`. -/
theorem c4_witness : (1 : ℚ) < 2 ∧ (0 : ℚ) < 1 ∧ 0 < computeDt (2 : ℚ) 1 1 :=
  ⟨by norm_num, by norm_num, c4_dt_no_clamp.1 2 1 1 (by norm_num) (by norm_num)⟩

/-! ### Claim C10: defaults of the `add` command -/

/-- C10: in the `add` command an explicitly supplied `0` for `mass` or
`radius` is falsy, so `data.mass || 1` and `data.radius || 1` yield the
default `1` exactly as if the field had been omitted; consequently no body
created by `add` has zero mass or zero radius, while a negative supplied mass
or radius is stored unchanged. -/
theorem c10_add_defaults :
    (∀ d : AddData K,
        addBody { d with mass := some 0 } = addBody { d with mass := none }
        ∧ (addBody { d with mass := some 0 }).mass = 1
        ∧ addBody { d with radius := some 0 } = addBody { d with radius := none }
        ∧ (addBody { d with radius := some 0 }).radius = 1)
    ∧ (∀ d : AddData K, (addBody d).mass ≠ 0 ∧ (addBody d).radius ≠ 0)
    ∧ (∀ (d : AddData K) (m r : K), m < 0 → r < 0 →
        (addBody { d with mass := some m }).mass = m
        ∧ (addBody { d with radius := some r }).radius = r) := by
  refine ⟨fun d => ⟨?_, ?_, ?_, ?_⟩, fun d => ⟨?_, ?_⟩, fun d m r hm hr => ⟨?_, ?_⟩⟩
  · simp [addBody, jsOr]
  · simp [addBody, jsOr]
  · simp [addBody, jsOr]
  · simp [addBody, jsOr]
  · rcases hd : d.mass with _ | x
    · simp [addBody, jsOr, hd]
    · simp only [addBody, jsOr, hd]
      split_ifs with h
      · exact one_ne_zero
      · exact h
  · rcases hd : d.radius with _ | x
    · simp [addBody, jsOr, hd]
    · simp only [addBody, jsOr, hd]
      split_ifs with h
      · exact one_ne_zero
      · exact h
  · simp [addBody, jsOr, ne_of_lt hm]
  · simp [addBody, jsOr, ne_of_lt hr]

/-- C10 witness: supplied masses `0` and `-2` and radii `0` and `-3` on a
concrete `add` payload over `ℚ`. -/
theorem c10_witness :
    ((-2 : ℚ) < 0) ∧ ((-3 : ℚ) < 0)
    ∧ (addBody (⟨0, 0, 0, none, none, none, none, some (-2), none⟩ : AddData ℚ)).mass = -2
    ∧ (addBody (⟨0, 0, 0, none, none, none, none, none, some (-3)⟩ : AddData ℚ)).radius = -3 := by
  refine ⟨by norm_num, by norm_num, ?_, ?_⟩
  · exact (c10_add_defaults.2.2 ⟨0, 0, 0, none, none, none, none, none, none⟩
      (-2) (-3) (by norm_num) (by norm_num)).1
  · exact (c10_add_defaults.2.2 ⟨0, 0, 0, none, none, none, none, none, none⟩
      (-2) (-3) (by norm_num) (by norm_num)).2

end GravSim
